import Mathlib

/-!
Verification of the connection-status debouncer in
`src/mobile/src/components/misc/CloudConnection.tsx`.

The component keeps a small piece of state (`delayedStatus`,
`hideCloudConnection`, the refs `disconnectionTimerRef` and
`firstDisconnectedTimeRef`) and reacts to every change of the raw
connection status in a `useEffect`.  We embed that effect body as the
operation `onStatusChanged`, the `setTimeout` closure as `timerCallback`
(it re-reads the live status from the store), and give an event-timeline
semantics `run` that delivers status changes at wall-clock times and
fires a due timer with the live status current at that moment.
-/

namespace CloudConnection

/-- Modelled from the spec: the `WebSocketStatus` enum lives in
`src/services/WebSocketManager`, which is not part of the sources here;
the spec states it has exactly four variants. -/
inductive WebSocketStatus
  | CONNECTED
  | CONNECTING
  | ERROR
  | DISCONNECTED
deriving DecidableEq, Repr

open WebSocketStatus

/-- `DISCONNECTION_DELAY = 5000 // 5 seconds delay`. -/
def DISCONNECTION_DELAY : Nat := 5000

/-- Modelled from the spec: `translate` is the external i18n lookup; we
represent a label by its translation key. -/
def translate (key : String) : String := key

/-- Result of `getIcon`: `{name: string; color: string; label: string}`. -/
structure IconSpec where
  name : String
  color : String
  label : String
deriving DecidableEq, Repr

/-- `getGradientColors`: gradient colors for a status.  The source switch
has `case DISCONNECTED: default:` sharing the red arm, embedded here as a
catch-all pattern. -/
def getGradientColors (connectionStatus : WebSocketStatus) : List String :=
  match connectionStatus with
  | CONNECTED => ["#4CAF50", "#81C784"]
  | CONNECTING => ["#FFA726", "#FB8C00"]
  | ERROR => ["#FFC107", "#FFD54F"]
  | _ => ["#FF8A80", "#FF5252"]

/-- `getIcon`: icon name, color and label for a status; again
`case DISCONNECTED: default:` share the final arm. -/
def getIcon (connectionStatus : WebSocketStatus) : IconSpec :=
  match connectionStatus with
  | CONNECTED => ⟨"check-circle", "#4CAF50", translate "connection:connected"⟩
  | CONNECTING => ⟨"spinner", "#FB8C00", translate "connection:connecting"⟩
  | ERROR => ⟨"refresh", "#FFD54F", translate "connection:reconnecting"⟩
  | _ => ⟨"exclamation-circle", "#FF5252", translate "connection:disconnected"⟩

/-- The debouncer state owned by the component:
`delayedStatus` / `hideCloudConnection` are the two `useState` cells,
`firstDisconnectedTime` is `firstDisconnectedTimeRef.current`, and
`disconnectionTimer` is `disconnectionTimerRef.current`, represented by
the absolute wall-clock time at which the scheduled timeout fires
(the closure captures nothing else).  `refreshCount` counts the
invocations of the external `refreshApplets` trigger. -/
structure DebouncerState where
  delayedStatus : WebSocketStatus
  hideCloudConnection : Bool
  firstDisconnectedTime : Option Nat
  disconnectionTimer : Option Nat
  refreshCount : Nat
deriving DecidableEq, Repr

/-- Mount-time state: `useState(true)` for `hideCloudConnection`,
`useState(connectionStatus)` for `delayedStatus`, both refs `null`. -/
def initState (connectionStatus : WebSocketStatus) : DebouncerState :=
  { delayedStatus := connectionStatus
    hideCloudConnection := true
    firstDisconnectedTime := none
    disconnectionTimer := none
    refreshCount := 0 }

/-- `shouldDisplay` is the negation of `hideCloudConnection`
(the component renders `null` exactly when `hideCloudConnection`). -/
def shouldDisplay (s : DebouncerState) : Bool :=
  !s.hideCloudConnection

/-- `clearTimeout(disconnectionTimerRef.current); disconnectionTimerRef.current = null`
— also the body of the effect's cleanup function. -/
def cancelTimer (s : DebouncerState) : DebouncerState :=
  { s with disconnectionTimer := none }

/-- The `setTimeout` closure: re-read the live status from
`useConnectionStore.getState().status` and reveal it only if it is still
not `CONNECTED`. -/
def timerCallback (liveStatus : WebSocketStatus) (s : DebouncerState) : DebouncerState :=
  if liveStatus ≠ CONNECTED then
    { s with delayedStatus := liveStatus, hideCloudConnection := false }
  else
    s

/-- The body of the `useEffect`, run at wall-clock time `now` when the raw
status becomes `newStatus`:
cancel any pending timer; on `CONNECTED` reset `firstDisconnectedTime`
and hide immediately; otherwise record the first-disconnect time if
unset, reveal at once when `Date.now() - firstDisconnectedTime` has
reached `DISCONNECTION_DELAY`, and otherwise schedule the timeout for the
remaining delay; finally invoke `refreshApplets` for `CONNECTED` or
`DISCONNECTED`. -/
def onStatusChanged (now : Nat) (newStatus : WebSocketStatus) (s : DebouncerState) :
    DebouncerState :=
  let s0 := cancelTimer s
  let s1 :=
    if newStatus = CONNECTED then
      { s0 with
        firstDisconnectedTime := none
        delayedStatus := newStatus
        hideCloudConnection := true }
    else
      let firstTime := s0.firstDisconnectedTime.getD now
      let s0 := { s0 with firstDisconnectedTime := some firstTime }
      let timeSinceLeftConnected := now - firstTime
      if timeSinceLeftConnected ≥ DISCONNECTION_DELAY then
        { s0 with delayedStatus := newStatus, hideCloudConnection := false }
      else
        let remainingDelay := DISCONNECTION_DELAY - timeSinceLeftConnected
        { s0 with disconnectionTimer := some (now + remainingDelay) }
  if newStatus = CONNECTED ∨ newStatus = DISCONNECTED then
    { s1 with refreshCount := s1.refreshCount + 1 }
  else
    s1

/-- Fire the pending timeout if its scheduled time has arrived by
`deadline`, feeding the callback the live status `raw` from the store;
a fired timer is no longer pending. -/
def fireIfDue (deadline : Nat) (raw : WebSocketStatus) (s : DebouncerState) : DebouncerState :=
  match s.disconnectionTimer with
  | none => s
  | some fireTime =>
      if fireTime ≤ deadline then timerCallback raw (cancelTimer s) else s

/-- Timeline semantics: process timed status events in order (firing a
timer that comes due before an event first, with the then-current raw
status), and finally fire any timer due by the query time `tq`. -/
def runFrom (s : DebouncerState) (raw : WebSocketStatus) :
    List (Nat × WebSocketStatus) → Nat → DebouncerState
  | [], tq => fireIfDue tq raw s
  | (t, st) :: rest, tq =>
      runFrom (onStatusChanged t st (fireIfDue t raw s)) st rest tq

/-- State observed at time `tq` after mounting with raw status
`initStatus` and then receiving the listed status-change events. -/
def run (initStatus : WebSocketStatus) (events : List (Nat × WebSocketStatus)) (tq : Nat) :
    DebouncerState :=
  runFrom (initState initStatus) initStatus events tq

/-- Closed form of the C1/P2 scenario: mount connected, receive
`DISCONNECTED` at time `T`, no further input. -/
lemma run_single_disconnect_eq (T tq : Nat) :
    run CONNECTED [(T, DISCONNECTED)] tq =
      if T + 5000 ≤ tq then
        ⟨DISCONNECTED, false, some T, none, 1⟩
      else
        ⟨CONNECTED, true, some T, some (T + 5000), 1⟩ := by
  simp [run, runFrom, initState, onStatusChanged, cancelTimer, fireIfDue,
    timerCallback, DISCONNECTION_DELAY]

/-- Closed form of the C4/P4 scenario: mount connected, then
`CONNECTING`, `ERROR`, `DISCONNECTED` at 100ms intervals starting at
`T + 100`. -/
lemma run_flapping_eq (T tq : Nat) :
    run CONNECTED [(T + 100, CONNECTING), (T + 200, ERROR), (T + 300, DISCONNECTED)] tq =
      if T + 100 + 5000 ≤ tq then
        ⟨DISCONNECTED, false, some (T + 100), none, 1⟩
      else
        ⟨CONNECTED, true, some (T + 100), some (T + 100 + 5000), 1⟩ := by
  simp [run, runFrom, initState, onStatusChanged, cancelTimer, fireIfDue,
    timerCallback, DISCONNECTION_DELAY]

/-- Reveal paths only ever exhibit a non-connected status: whenever the
indicator is not hidden, the displayed status is not `CONNECTED`. -/
def displayInvariant (s : DebouncerState) : Prop :=
  s.hideCloudConnection = false → s.delayedStatus ≠ CONNECTED

/-- C5: for every prior state, `onStatusChanged` on `CONNECTED`
synchronously hides the indicator (`shouldDisplay` is false), sets the
displayed status to `CONNECTED`, clears `firstDisconnectedTime`, and
leaves no timer pending; recovery is never delayed. -/
theorem c5_immediate_hide_on_connect (now : Nat) (s : DebouncerState) :
    onStatusChanged now CONNECTED s =
      { delayedStatus := CONNECTED
        hideCloudConnection := true
        firstDisconnectedTime := none
        disconnectionTimer := none
        refreshCount := s.refreshCount + 1 } ∧
    shouldDisplay (onStatusChanged now CONNECTED s) = false := by
  constructor <;> simp [onStatusChanged, cancelTimer, shouldDisplay]

/-- C6: every invocation of `onStatusChanged` first cancels any pending
timer — its result does not depend on the previously stored timer — and
the effect's cleanup (`cancelTimer`) unconditionally leaves no timer. -/
theorem c6_at_most_one_timer (now : Nat) (newStatus : WebSocketStatus)
    (s : DebouncerState) :
    onStatusChanged now newStatus s = onStatusChanged now newStatus (cancelTimer s) ∧
    (cancelTimer s).disconnectionTimer = none := by
  constructor
  · simp [onStatusChanged, cancelTimer]
  · rfl

/-- C7: after `onStatusChanged`, `firstDisconnectedTime` is `none` iff
the status just observed was `CONNECTED`; a non-connected status stores
the current time when the field was unset. -/
theorem c7_disconnected_since_iff_connected (now : Nat)
    (newStatus : WebSocketStatus) (s : DebouncerState) :
    ((onStatusChanged now newStatus s).firstDisconnectedTime = none ↔
      newStatus = CONNECTED) ∧
    (newStatus ≠ CONNECTED → s.firstDisconnectedTime = none →
      (onStatusChanged now newStatus s).firstDisconnectedTime = some now) := by
  constructor
  · unfold onStatusChanged cancelTimer
    cases newStatus <;> simp <;> split <;> simp
  · intro hne hnone
    unfold onStatusChanged cancelTimer
    cases newStatus <;> simp_all <;> split <;> simp

/-- C7 witness. -/
theorem c7_disconnected_since_iff_connected_witness :
    ((onStatusChanged 7 DISCONNECTED (initState CONNECTED)).firstDisconnectedTime = none ↔
      DISCONNECTED = CONNECTED) ∧
    (onStatusChanged 7 DISCONNECTED (initState CONNECTED)).firstDisconnectedTime = some 7 :=
  ⟨(c7_disconnected_since_iff_connected 7 DISCONNECTED (initState CONNECTED)).1,
    (c7_disconnected_since_iff_connected 7 DISCONNECTED (initState CONNECTED)).2
      (by decide) (by decide)⟩

/-- C8: the display mapping is a pure total function of the status, and
any status other than `CONNECTED`, `CONNECTING` or `ERROR` falls into
the default arm with the `DISCONNECTED` visuals. -/
theorem c8_display_mapping_default_arm (st : WebSocketStatus)
    (h1 : st ≠ CONNECTED) (h2 : st ≠ CONNECTING) (h3 : st ≠ ERROR) :
    getGradientColors st = ["#FF8A80", "#FF5252"] ∧
    getIcon st =
      { name := "exclamation-circle"
        color := "#FF5252"
        label := "connection:disconnected" } ∧
    getGradientColors st = getGradientColors DISCONNECTED ∧
    getIcon st = getIcon DISCONNECTED := by
  cases st <;> simp_all [getGradientColors, getIcon, translate]

/-- C8 witness. -/
theorem c8_display_mapping_default_arm_witness :
    getGradientColors DISCONNECTED = ["#FF8A80", "#FF5252"] ∧
    getIcon DISCONNECTED =
      { name := "exclamation-circle"
        color := "#FF5252"
        label := "connection:disconnected" } ∧
    getGradientColors DISCONNECTED = getGradientColors DISCONNECTED ∧
    getIcon DISCONNECTED = getIcon DISCONNECTED :=
  c8_display_mapping_default_arm DISCONNECTED (by decide) (by decide) (by decide)

/-- C9: the initial state satisfies the reveal invariant, and both
`onStatusChanged` and the timer callback preserve it: whenever the
indicator is revealed, the displayed status is not `CONNECTED`. -/
theorem c9_revealed_implies_nonconnected (st live : WebSocketStatus)
    (now : Nat) (s : DebouncerState) (hs : displayInvariant s) :
    displayInvariant (initState st) ∧
    displayInvariant (onStatusChanged now st s) ∧
    displayInvariant (timerCallback live s) := by
  refine ⟨by simp [displayInvariant, initState], ?_, ?_⟩
  · unfold displayInvariant onStatusChanged cancelTimer at *
    cases st <;> simp_all <;> split <;> simp_all
  · unfold displayInvariant timerCallback at *
    cases live <;> simp_all

/-- C9 witness. -/
theorem c9_revealed_implies_nonconnected_witness :
    displayInvariant (initState DISCONNECTED) ∧
    displayInvariant (onStatusChanged 0 DISCONNECTED (initState CONNECTED)) ∧
    displayInvariant (timerCallback DISCONNECTED (initState CONNECTED)) :=
  c9_revealed_implies_nonconnected DISCONNECTED DISCONNECTED 0
    (initState CONNECTED) (by simp [displayInvariant, initState])

/-- C10: while a non-connected status arrives before the delay has
elapsed, the synchronous part of `onStatusChanged` changes neither the
displayed status nor the hidden flag; it only records the
first-disconnect time, schedules the timer for the remaining delay, and
bumps the refresh count exactly when the status is `DISCONNECTED`. -/
theorem c10_frame_before_deadline (now : Nat) (newStatus : WebSocketStatus)
    (s : DebouncerState) (hne : newStatus ≠ CONNECTED)
    (hlt : now - s.firstDisconnectedTime.getD now < DISCONNECTION_DELAY) :
    (onStatusChanged now newStatus s).delayedStatus = s.delayedStatus ∧
    (onStatusChanged now newStatus s).hideCloudConnection = s.hideCloudConnection ∧
    (onStatusChanged now newStatus s).firstDisconnectedTime =
      some (s.firstDisconnectedTime.getD now) ∧
    (onStatusChanged now newStatus s).disconnectionTimer =
      some (now + (DISCONNECTION_DELAY - (now - s.firstDisconnectedTime.getD now))) ∧
    (onStatusChanged now newStatus s).refreshCount =
      (if newStatus = DISCONNECTED then s.refreshCount + 1 else s.refreshCount) := by
  have h5 : ¬ DISCONNECTION_DELAY ≤ now - s.firstDisconnectedTime.getD now :=
    Nat.not_le.mpr hlt
  unfold onStatusChanged cancelTimer
  cases newStatus
  case CONNECTED => exact absurd rfl hne
  all_goals (simp only [if_neg h5]; simp)

/-- C10 witness. -/
theorem c10_frame_before_deadline_witness :
    (onStatusChanged 40 CONNECTING (initState CONNECTED)).delayedStatus =
      (initState CONNECTED).delayedStatus ∧
    (onStatusChanged 40 CONNECTING (initState CONNECTED)).hideCloudConnection =
      (initState CONNECTED).hideCloudConnection ∧
    (onStatusChanged 40 CONNECTING (initState CONNECTED)).firstDisconnectedTime =
      some ((initState CONNECTED).firstDisconnectedTime.getD 40) ∧
    (onStatusChanged 40 CONNECTING (initState CONNECTED)).disconnectionTimer =
      some (40 + (DISCONNECTION_DELAY -
        (40 - (initState CONNECTED).firstDisconnectedTime.getD 40))) ∧
    (onStatusChanged 40 CONNECTING (initState CONNECTED)).refreshCount =
      (if CONNECTING = DISCONNECTED
        then (initState CONNECTED).refreshCount + 1
        else (initState CONNECTED).refreshCount) :=
  c10_frame_before_deadline 40 CONNECTING (initState CONNECTED)
    (by decide) (by decide)

/-- C1: starting connected, after `DISCONNECTED` arrives at time `T`
with no further status change, the indicator is hidden at every time
strictly before `T + 5000` and revealed with displayed status
`DISCONNECTED` at every time at or after `T + 5000`. -/
theorem c1_delay_before_reveal (T tq1 tq2 : Nat)
    (h1 : tq1 < T + 5000) (h2 : T + 5000 ≤ tq2) :
    shouldDisplay (run CONNECTED [(T, DISCONNECTED)] tq1) = false ∧
    shouldDisplay (run CONNECTED [(T, DISCONNECTED)] tq2) = true ∧
    (run CONNECTED [(T, DISCONNECTED)] tq2).delayedStatus = DISCONNECTED := by
  rw [run_single_disconnect_eq, run_single_disconnect_eq,
    if_neg (Nat.not_le.mpr h1), if_pos h2]
  simp [shouldDisplay]

/-- C1 witness: false at 4999ms, true at 5000ms. -/
theorem c1_delay_before_reveal_witness :
    shouldDisplay (run CONNECTED [(0, DISCONNECTED)] 4999) = false ∧
    shouldDisplay (run CONNECTED [(0, DISCONNECTED)] 5000) = true ∧
    (run CONNECTED [(0, DISCONNECTED)] 5000).delayedStatus = DISCONNECTED :=
  c1_delay_before_reveal 0 4999 5000 (by decide) (by decide)

/-- C2: each `onStatusChanged` call invokes the refresh trigger exactly
once when the new status is `CONNECTED` or `DISCONNECTED` and never for
`CONNECTING` or `ERROR`; over the run with initial `CONNECTED` and
events `DISCONNECTED@0`, `ERROR@1000`, `CONNECTED@1500`, refresh is
invoked exactly twice. -/
theorem c2_refresh_trigger (now : Nat) (newStatus : WebSocketStatus)
    (s : DebouncerState) :
    (onStatusChanged now newStatus s).refreshCount =
      (if newStatus = CONNECTED ∨ newStatus = DISCONNECTED
        then s.refreshCount + 1 else s.refreshCount) ∧
    (run CONNECTED [(0, DISCONNECTED), (1000, ERROR), (1500, CONNECTED)]
        1500).refreshCount = 2 := by
  constructor
  · unfold onStatusChanged cancelTimer
    cases newStatus <;> simp <;> split <;> simp
  · rfl

/-- C3: recovery cancels a pending reveal: over the run `DISCONNECTED` at
`T` then `CONNECTED` at `T + 2000`, the indicator is hidden at every
query time (in particular at `T + 5000`); the `CONNECTED` call leaves no
timer pending; and a timer callback that does fire, re-reading a live
status of `CONNECTED`, leaves the state unchanged. -/
theorem c3_recovery_cancels_reveal (T tq now : Nat) (s : DebouncerState) :
    shouldDisplay (run CONNECTED [(T, DISCONNECTED), (T + 2000, CONNECTED)] tq)
        = false ∧
    (onStatusChanged now CONNECTED s).disconnectionTimer = none ∧
    timerCallback CONNECTED s = s := by
  refine ⟨?_, ?_, ?_⟩
  · simp [run, runFrom, initState, onStatusChanged, cancelTimer, fireIfDue,
      timerCallback, DISCONNECTION_DELAY, shouldDisplay]
  · simp [onStatusChanged, cancelTimer]
  · simp [timerCallback]

/-- C4: with `CONNECTING`, `ERROR`, `DISCONNECTED` arriving 100ms apart
inside the window, exactly one timer is pending, scheduled 5000ms after
the first departure from `CONNECTED` (at `T + 100`, not restarted by the
later events); the indicator stays hidden before that deadline and is
revealed at or after it showing the last (live) status `DISCONNECTED`. -/
theorem c4_single_reveal_last_status (T tq1 tq2 : Nat)
    (h1 : tq1 < T + 100 + 5000) (h2 : T + 100 + 5000 ≤ tq2) :
    (run CONNECTED [(T + 100, CONNECTING), (T + 200, ERROR), (T + 300, DISCONNECTED)]
        tq1).disconnectionTimer = some (T + 100 + 5000) ∧
    shouldDisplay (run CONNECTED
        [(T + 100, CONNECTING), (T + 200, ERROR), (T + 300, DISCONNECTED)] tq1)
      = false ∧
    shouldDisplay (run CONNECTED
        [(T + 100, CONNECTING), (T + 200, ERROR), (T + 300, DISCONNECTED)] tq2)
      = true ∧
    (run CONNECTED [(T + 100, CONNECTING), (T + 200, ERROR), (T + 300, DISCONNECTED)]
        tq2).delayedStatus = DISCONNECTED := by
  rw [run_flapping_eq, run_flapping_eq,
    if_neg (Nat.not_le.mpr h1), if_pos h2]
  simp [shouldDisplay]

/-- C4 witness: hidden at 5099ms, revealed with `DISCONNECTED` at
5100ms, timer scheduled for 5100ms. -/
theorem c4_single_reveal_last_status_witness :
    (run CONNECTED [(0 + 100, CONNECTING), (0 + 200, ERROR), (0 + 300, DISCONNECTED)]
        5099).disconnectionTimer = some (0 + 100 + 5000) ∧
    shouldDisplay (run CONNECTED
        [(0 + 100, CONNECTING), (0 + 200, ERROR), (0 + 300, DISCONNECTED)] 5099)
      = false ∧
    shouldDisplay (run CONNECTED
        [(0 + 100, CONNECTING), (0 + 200, ERROR), (0 + 300, DISCONNECTED)] 5100)
      = true ∧
    (run CONNECTED [(0 + 100, CONNECTING), (0 + 200, ERROR), (0 + 300, DISCONNECTED)]
        5100).delayedStatus = DISCONNECTED :=
  c4_single_reveal_last_status 0 5099 5100 (by decide) (by decide)

end CloudConnection
